import Mathlib

/-!
Shallow embedding of the amazon-mcp-local server core (src/server.ts,
src/amazon.ts, src/session-manager.ts).  JavaScript objects become Lean
structures; a JSON key that may be absent becomes an `Option` field;
JavaScript truthiness tests are made explicit (`truthyStr`, `jsTruthyId`).
The Express `/message` handler, the SSE connection registry, the
authentication middleware, the cookie session manager and the `addToCart`
capability are translated function by function from the source.
-/

namespace AmazonMcp

/-- JavaScript truthiness of an optional string: `undefined` and the empty
string are falsy, every other string is truthy. -/
def truthyStr : Option String → Bool
  | none => false
  | some s => s ≠ ""

/-- A JSON-RPC `id` value as it appears in an envelope: a number, a string,
or the JSON literal `null`. -/
inductive JsonId
  | num (n : Int)
  | str (s : String)
  | null
deriving DecidableEq, Repr

/-- JavaScript truthiness of a JSON-RPC id value (`0`, `""` and `null` are
falsy). -/
def jsTruthyId : JsonId → Bool
  | .num n => n ≠ 0
  | .str s => s ≠ ""
  | .null => false

/-- `jsonrpcRequest?.id || null` — the id echoed in synchronous JSON error
bodies: a falsy id collapses to `null` (modelled as `none`). -/
def jsIdOrNull : Option JsonId → Option JsonId
  | none => none
  | some i => if jsTruthyId i then some i else none

/-- `params` of a `tools/call` request (`jsonrpcRequest.params.name`). -/
structure ToolCallParams where
  name : String
deriving DecidableEq, Repr

/-- One inbound JSON-RPC envelope posted to `/message`.  `id = none` means
the JSON body has no `id` key at all (`'id' in jsonrpcRequest` is false);
`method = none` means no `method` key. -/
structure InboundMessage where
  id : Option JsonId := none
  method : Option String := none
  params : Option ToolCallParams := none
deriving DecidableEq, Repr

/-- Data payload of a capability result (`result.data`).  Only the
`add_to_cart` shape `{title, quantity}` is inspected by the relay; the
other tools' payloads (search listings, cart contents, login flag) are
carried opaquely. -/
inductive ResultData
  | cartAdd (title : String) (quantity : Nat)
  | searchResults
  | cartContents
  | loginStatus (loggedIn : Bool)
deriving DecidableEq, Repr

/-- The uniform capability envelope `{success, message, data?, error?}`
returned by every function in src/amazon.ts. -/
structure OperationResult where
  success : Bool
  message : String
  data : Option ResultData := none
  error : Option String := none
deriving DecidableEq, Repr

/-- The `result` member of an outbound JSON-RPC response: the static
`initialize` descriptor, the static tool catalog, or a `tools/call`
result whose single `text` content item is the stringified capability
envelope (carried structurally here). -/
inductive ResultPayload
  | initializeResult
  | toolsListResult
  | toolContent (result : OperationResult)
deriving DecidableEq, Repr

/-- The mutually exclusive `result` / `error` member of an outbound
JSON-RPC envelope. -/
inductive RpcOutcome
  | ok (r : ResultPayload)
  | err (code : Int) (message : String)
deriving DecidableEq, Repr

/-- One outbound JSON-RPC envelope (`{jsonrpc: '2.0', id, result|error}`);
`id = none` renders as `null`. -/
structure Envelope where
  id : Option JsonId := none
  outcome : RpcOutcome
deriving DecidableEq, Repr

/-- Whether an envelope carries a JSON-RPC `error` member (as opposed to a
`result`). -/
def Envelope.isErrorEnvelope (e : Envelope) : Bool :=
  match e.outcome with
  | .err _ _ => true
  | .ok _ => false

/-- Payload of an SSE frame: plain text (the endpoint URL) or a JSON
document. -/
inductive FramePayload
  | text (s : String)
  | json (e : Envelope)
deriving DecidableEq, Repr

/-- One server-sent-events frame as written by the server: either a
comment line `: <s>` or an explicitly typed `event: <t>\ndata: <d>\n\n`
frame. -/
inductive SSEFrame
  | comment (s : String)
  | event (eventType : String) (payload : FramePayload)
deriving DecidableEq, Repr

/-- The explicit message-type marker of a frame: the `event:` line's value,
or `none` for a comment frame. -/
def frameMarker : SSEFrame → Option String
  | .comment _ => none
  | .event t _ => some t

/-- `res.write(': connected\n\n')` — the connection-established frame. -/
def connectedFrame : SSEFrame := .comment "connected"

/-- `res.write(': ping\n\n')` — the heartbeat frame. -/
def heartbeatFrame : SSEFrame := .comment "ping"

/-- `res.write('event: endpoint\n'); res.write('data: <url>\n\n')`. -/
def endpointFrame (url : String) : SSEFrame := .event "endpoint" (.text url)

/-- `sendSSEMessage`: every delivered JSON-RPC response is framed as
`event: message\ndata: ${JSON.stringify(data)}\n\n`. -/
def sendSSEMessage (data : Envelope) : SSEFrame := .event "message" (.json data)

/-- One entry of the `activeConnections` map: the session id and whether
its response handle is still writable. -/
structure SSEConnection where
  sessionId : String
  writable : Bool
deriving DecidableEq, Repr

/-- The `activeConnections` map in insertion order (a JS `Map` iterates its
entries in insertion order). -/
abbrev ConnState := List SSEConnection

/-- `activeConnections.set(sessionId, {res, sessionId})` on stream open:
a fresh key is appended at the end of the iteration order. -/
def openConnection (conns : ConnState) (c : SSEConnection) : ConnState :=
  conns ++ [c]

/-- `activeConnections.delete(sessionId)` on stream close. -/
def closeConnection (conns : ConnState) (sid : String) : ConnState :=
  conns.filter (fun c => c.sessionId ≠ sid)

/-- `Array.from(activeConnections.values())[0]` — the connection the
`/message` handler writes to. -/
def selectConnection (conns : ConnState) : Option SSEConnection :=
  conns.head?

/-- Tool names the `tools/call` switch dispatches on. -/
def knownToolNames : List String :=
  ["search_amazon", "add_to_cart", "view_cart", "check_login", "save_session"]

/-- The `switch (toolName)` inside `tools/call`: a known name invokes its
capability (abstracted as `tools`), an unknown name throws
`Unknown tool: <name>`, which the surrounding `try/catch` converts into a
JSON-RPC error. -/
def toolDispatch (name : String) (tools : String → OperationResult) :
    Except String OperationResult :=
  if knownToolNames.contains name then .ok (tools name)
  else .error ("Unknown tool: " ++ name)

/-- `${jsonrpcRequest.method}` in the method-not-found message: template
interpolation renders an absent value as `undefined`. -/
def methodText : Option String → String
  | some m => m
  | none => "undefined"

/-- Method routing of the `/message` handler for a non-notification
request, following the source's `if / else if / else` chain.
`.error ()` models a thrown exception that escapes to the handler's outer
`catch` (reading `.name` of an absent `params`). -/
def routeRequest (msg : InboundMessage) (tools : String → OperationResult) :
    Except Unit Envelope :=
  if msg.method = some "initialize" then
    .ok ⟨msg.id, .ok .initializeResult⟩
  else if msg.method = some "tools/list" then
    .ok ⟨msg.id, .ok .toolsListResult⟩
  else if msg.method = some "tools/call" then
    match msg.params with
    | none => .error ()
    | some p =>
      match toolDispatch p.name tools with
      | .ok toolResult => .ok ⟨msg.id, .ok (.toolContent toolResult)⟩
      | .error m => .ok ⟨msg.id, .err (-32603) m⟩
  else
    .ok ⟨msg.id, .err (-32601) ("Method not found: " ++ methodText msg.method)⟩

/-- Observable outcome of one `POST /message`: the synchronous HTTP status,
the synchronous JSON body when one is sent, the frame written onto the
selected stream (if any), and the session id it was written to. -/
structure MessageOutcome where
  status : Nat
  body : Option Envelope := none
  frame : Option SSEFrame := none
  target : Option String := none
deriving DecidableEq, Repr

/-- The `/message` handler (src/server.ts `app.post('/message')`), step by
step: shape validation (400), connection lookup (503 when none),
notification test (`!('id' in jsonrpcRequest)` → 202, no frame), method
routing, writability re-check (503), delivery via `sendSSEMessage` and a
202 acknowledgment; a thrown routing exception is caught and answered
with 500. -/
def handleMessage (conns : ConnState) (msg : InboundMessage)
    (tools : String → OperationResult) : MessageOutcome :=
  if truthyStr msg.method = false then
    { status := 400, body := some ⟨none, .err (-32600) "Invalid Request"⟩ }
  else
    match selectConnection conns with
    | none =>
      { status := 503
        body := some ⟨jsIdOrNull msg.id, .err (-32000) "No active connection"⟩ }
    | some conn =>
      if msg.id.isNone then
        { status := 202 }
      else
        match routeRequest msg tools with
        | .error _ =>
          { status := 500
            body := some ⟨jsIdOrNull msg.id, .err (-32603) "Internal error"⟩ }
        | .ok response =>
          if conn.writable = false then
            { status := 503
              body := some ⟨jsIdOrNull msg.id, .err (-32000) "SSE connection closed"⟩ }
          else
            { status := 202
              frame := some (sendSSEMessage response)
              target := some conn.sessionId }

/-! ### Authentication middleware and routes (src/server.ts) -/

/-- One authenticated HTTP request as the middleware sees it:
the Authorization header value with the `Bearer ` prefix stripped
(`none` when the header is absent), and the `token` query parameter. -/
structure AuthRequest where
  headerToken : Option String := none
  queryToken : Option String := none
deriving DecidableEq, Repr

/-- `const providedToken = headerToken || queryToken` — JS `||` falls
through to the query token when the header token is absent or empty. -/
def providedToken (r : AuthRequest) : Option String :=
  if truthyStr r.headerToken then r.headerToken else r.queryToken

/-- The `authenticate` middleware: when `AUTH_TOKEN` is unset (or empty,
which is equally falsy for an environment variable) every request is
allowed; otherwise the request is allowed exactly when the provided token
strictly equals the configured secret, and rejected with 401 otherwise. -/
def authenticate (secret : Option String) (r : AuthRequest) : Bool :=
  if truthyStr secret = false then true
  else decide (providedToken r = secret)

/-- The three routes the Express app registers. -/
inductive Endpoint
  | health
  | sse
  | message
deriving DecidableEq, Repr

/-- Which routes mount the `authenticate` middleware:
`app.get('/sse', authenticate, ...)` and
`app.post('/message', authenticate, ...)` do; `app.get('/health', ...)`
does not. -/
def endpointAuthenticated : Endpoint → Bool
  | .health => false
  | .sse => true
  | .message => true

/-- Whether a request to a route reaches its handler (versus being stopped
with a 401 by the middleware). -/
def requestAllowed (secret : Option String) (r : AuthRequest)
    (e : Endpoint) : Bool :=
  if endpointAuthenticated e then authenticate secret r else true

/-! ### Credential store (src/session-manager.ts) -/

/-- One serialized cookie record.  `expires` is an absolute epoch time in
seconds; puppeteer reports `-1` (and serialization may yield `0` or an
absent value, all falsy-or-nonpositive) for a session cookie with no
stored expiry. -/
structure Cookie where
  name : String
  value : String
  domain : String
  expires : Int
deriving DecidableEq, Repr

/-- `c.domain.includes('amazon')`: some suffix of the domain starts with
the literal `amazon`. -/
def domainHasAmazon (d : String) : Bool :=
  d.data.tails.any (fun t => "amazon".data.isPrefixOf t)

/-- `365 * 24 * 60 * 60` seconds. -/
def yearSeconds : Int := 365 * 24 * 60 * 60

/-- The per-cookie rewrite performed at save time:
`cookie.expires && cookie.expires > 0 ? cookie.expires : oneYearFromNow`
— a cookie with no positive stored expiry is rewritten to one year past
the save instant. -/
def persistCookie (nowSec : Int) (c : Cookie) : Cookie :=
  { c with expires := if c.expires > 0 then c.expires else nowSec + yearSeconds }

/-- `saveAmazonSession`: filter the live cookie set to amazon domains,
rewrite session cookies to a one-year expiry, and write the result to the
cookies file (returned here as the written record list). -/
def saveAmazonSession (cookies : List Cookie) (nowSec : Int) : List Cookie :=
  (cookies.filter (fun c => domainHasAmazon c.domain)).map (persistCookie nowSec)

/-- The state of the durable cookies file as `restoreAmazonSession` can
find it: absent, present but not valid JSON, or a parsed record list. -/
inductive FileState
  | absent
  | corrupt (raw : String)
  | parsed (cookies : List Cookie)
deriving DecidableEq, Repr

/-- The body of `restoreAmazonSession` before its `try/catch`: an absent
file returns false with nothing applied; unparseable content throws
(`JSON.parse`); otherwise expired cookies are filtered out and the rest
applied, returning false when none survive. -/
def restoreInner (file : FileState) (nowSec : Int) :
    Except String (Bool × Nat) :=
  match file with
  | .absent => .ok (false, 0)
  | .corrupt _ => .error "Unexpected token in JSON"
  | .parsed cookies =>
    let validCookies := cookies.filter (fun c => c.expires > nowSec)
    if validCookies.isEmpty then .ok (false, 0)
    else .ok (true, validCookies.length)

/-- `restoreAmazonSession`: the `try/catch` wrapper converts any thrown
error into a logged `false` return — nothing escapes the store. -/
def restoreAmazonSession (file : FileState) (nowSec : Int) : Bool × Nat :=
  match restoreInner file nowSec with
  | .ok r => r
  | .error _ => (false, 0)

/-- The cookie records actually applied to the page by
`restoreAmazonSession` (`page.setCookie(...validCookies)`); empty in every
failure outcome. -/
def restoredCookies (file : FileState) (nowSec : Int) : List Cookie :=
  match file with
  | .parsed cookies => cookies.filter (fun c => c.expires > nowSec)
  | _ => []

/-! ### addToCart capability (src/amazon.ts) -/

/-- Arguments of `addToCart({query?, asin?, quantity?})`. -/
structure AddToCartParams where
  query : Option String := none
  asin : Option String := none
  quantity : Option Nat := none
deriving DecidableEq, Repr

/-- `const quantity = params.quantity || 1` — absent and `0` (both falsy)
default to 1. -/
def jsQuantity : Option Nat → Nat
  | none => 1
  | some q => if q = 0 then 1 else q

/-- The browser observations `addToCart` depends on: whether the
navigation chain of the asin path (direct product-page goto) or of the
query path (search, click first result) completes, the text of the
`#productTitle` element, and whether the `#add-to-cart-button` element
exists. -/
structure PageEnv where
  asinNavOk : Bool
  queryNavOk : Bool
  productTitle : Option String
  addToCartButtonPresent : Bool
deriving DecidableEq, Repr

/-- `titleEl?.textContent?.trim() || 'Unknown Product'`. -/
def pageTitle (env : PageEnv) : String :=
  match env.productTitle with
  | some t => if t = "" then "Unknown Product" else t
  | none => "Unknown Product"

/-- `addToCart` (src/amazon.ts): branch on a truthy `asin`, else a truthy
`query`, else throw the validation error; then read the title, require
the add-to-cart button, and return the uniform envelope — all throws are
caught and converted into `{success: false, message, error}`. -/
def addToCart (params : AddToCartParams) (env : PageEnv) : OperationResult :=
  let quantity := jsQuantity params.quantity
  let navigate : Except String Unit :=
    if truthyStr params.asin then
      if env.asinNavOk then .ok () else .error "Navigation to product page failed"
    else if truthyStr params.query then
      if env.queryNavOk then .ok () else .error "Search navigation failed"
    else .error "Either query or asin must be provided"
  match navigate with
  | .error e =>
    { success := false, message := "Failed to add item to cart", error := some e }
  | .ok _ =>
    let title := pageTitle env
    if env.addToCartButtonPresent then
      { success := true
        message := "Added \"" ++ title ++ "\" to cart (quantity: " ++ toString quantity ++ ")"
        data := some (.cartAdd title quantity) }
    else
      { success := false, message := "Failed to add item to cart"
        error := some "Add to Cart button not found" }

/-- Whether the navigation phase chosen by the parameter branching
succeeds in a given page environment. -/
def navSucceeds (params : AddToCartParams) (env : PageEnv) : Bool :=
  if truthyStr params.asin then env.asinNavOk
  else if truthyStr params.query then env.queryNavOk
  else false

/-! ### Concrete fixtures used to evaluate the model -/

/-- A capability stub standing in for the browser-backed tool calls. -/
def toolStub : String → OperationResult :=
  fun _ => { success := true, message := "ok" }

/-- Stream A of the two-stream scenario, opened first. -/
def connA : SSEConnection := ⟨"A", true⟩

/-- Stream B of the two-stream scenario, opened second. -/
def connB : SSEConnection := ⟨"B", true⟩

/-- A well-formed `initialize` request with id 1. -/
def initMsg : InboundMessage := { id := some (.num 1), method := some "initialize" }

/-! ### Helper lemmas -/

/-- Routing never throws except for a `tools/call` with absent `params`. -/
lemma routeRequest_ok (msg : InboundMessage) (tools : String → OperationResult)
    (hp : msg.method = some "tools/call" → msg.params.isSome) :
    ∃ e, routeRequest msg tools = .ok e := by
  unfold routeRequest
  split_ifs with h1 h2 h3
  · exact ⟨_, rfl⟩
  · exact ⟨_, rfl⟩
  · rcases hq : msg.params with _ | p
    · rw [h3] at hp
      simp [hq] at hp
    · rcases hd : toolDispatch p.name tools with m | r
      · exact ⟨⟨msg.id, .err (-32603) m⟩, by simp [hq, hd]⟩
      · exact ⟨⟨msg.id, .ok (.toolContent r)⟩, by simp [hq, hd]⟩
  · exact ⟨_, rfl⟩

/-- Every frame the `/message` handler writes is produced by
`sendSSEMessage`. -/
lemma handleMessage_frame_eq (conns : ConnState) (msg : InboundMessage)
    (tools : String → OperationResult) (f : SSEFrame)
    (h : (handleMessage conns msg tools).frame = some f) :
    ∃ e, f = sendSSEMessage e := by
  unfold handleMessage at h
  split at h
  · simp at h
  · split at h
    · simp at h
    · split at h
      · simp at h
      · split at h
        · simp at h
        · split at h
          · simp at h
          · simp only [Option.some.injEq] at h
            exact ⟨_, h.symm⟩

/-! ### Claim theorems -/

/-- C1: with streams A (opened first) and B (opened second) both active,
the `/message` handler selects `Array.from(activeConnections.values())[0]`
— the FIRST-inserted entry of the insertion-ordered map — so a response
is written onto A, the oldest session, not onto B as the documented
"most recently opened" policy requires; after B closes, delivery is
(still) to A. -/
theorem c1_delivery_targets_oldest_session :
    selectConnection (openConnection (openConnection [] connA) connB) = some connA
    ∧ (handleMessage (openConnection (openConnection [] connA) connB)
        initMsg toolStub).target = some "A"
    ∧ (handleMessage (closeConnection (openConnection (openConnection [] connA) connB)
        "B") initMsg toolStub).target = some "A"
    ∧ connA ≠ connB := by
  refine ⟨rfl, rfl, rfl, by decide⟩

/-- C3: a request posted to `/message` while zero streams are open is
answered synchronously with status 503 and a JSON-RPC error object
(code -32000, "No active connection"); no frame is delivered and the
message is not silently dropped. -/
theorem c3_no_stream_yields_503 (msg : InboundMessage)
    (tools : String → OperationResult) (hm : truthyStr msg.method = true) :
    handleMessage [] msg tools =
      { status := 503
        body := some ⟨jsIdOrNull msg.id, .err (-32000) "No active connection"⟩ } := by
  simp [handleMessage, hm, selectConnection]

/-- Witness for C3 at a concrete `tools/list` request with id 1. -/
theorem c3_no_stream_yields_503_witness :
    handleMessage [] { id := some (.num 1), method := some "tools/list" } toolStub =
      { status := 503
        body := some ⟨some (.num 1), .err (-32000) "No active connection"⟩ } :=
  c3_no_stream_yields_503
    { id := some (.num 1), method := some "tools/list" } toolStub (by decide)

/-- C10: the `/message` handler looks up an active connection before the
notification test, so a notification (no `id` key) submitted while zero
streams are open receives the 503 no-active-connection error, not the 202
acknowledgment. -/
theorem c10_notification_without_stream_503 (msg : InboundMessage)
    (tools : String → OperationResult) (_hid : msg.id = none)
    (hm : truthyStr msg.method = true) :
    (handleMessage [] msg tools).status = 503
    ∧ (handleMessage [] msg tools).status ≠ 202 := by
  simp [handleMessage, hm, selectConnection]

/-- Witness for C10 at a concrete `notifications/initialized`
notification. -/
theorem c10_notification_without_stream_503_witness :
    (handleMessage [] { method := some "notifications/initialized" } toolStub).status = 503
    ∧ (handleMessage [] { method := some "notifications/initialized" } toolStub).status ≠ 202 :=
  c10_notification_without_stream_503
    { method := some "notifications/initialized" } toolStub rfl (by decide)

/-- C2: with an active writable stream, an inbound message is treated as a
notification iff it has no `id` key at all: a message without `id` is
acknowledged with 202 and produces no frame, while a message with
`id: 0` is processed as a request and produces a response frame on the
stream (still under a 202 ack). -/
theorem c2_notification_iff_no_id_key (conns : ConnState)
    (conn : SSEConnection) (msg : InboundMessage)
    (tools : String → OperationResult)
    (hsel : selectConnection conns = some conn) (hw : conn.writable = true)
    (hm : truthyStr msg.method = true)
    (hp : msg.method = some "tools/call" → msg.params.isSome) :
    (msg.id = none →
      handleMessage conns msg tools = { status := 202 })
    ∧ (msg.id = some (.num 0) →
      (handleMessage conns msg tools).frame.isSome = true
      ∧ (handleMessage conns msg tools).status = 202) := by
  constructor
  · intro hid
    simp [handleMessage, hm, hsel, hid]
  · intro hid
    obtain ⟨e, he⟩ := routeRequest_ok msg tools hp
    simp [handleMessage, hm, hsel, hid, he, hw]

/-- Witness for C2: a concrete id-less notification is acknowledged with
202 and no frame, and a concrete `tools/list` request with `id: 0`
produces a frame. -/
theorem c2_notification_iff_no_id_key_witness :
    handleMessage [connA] { method := some "notifications/initialized" } toolStub
      = { status := 202 }
    ∧ (handleMessage [connA]
        { id := some (.num 0), method := some "tools/list" } toolStub).frame.isSome = true := by
  constructor
  · exact (c2_notification_iff_no_id_key [connA] connA
      { method := some "notifications/initialized" } toolStub rfl rfl (by decide)
      (by intro h; simp at h)).1 rfl
  · exact ((c2_notification_iff_no_id_key [connA] connA
      { id := some (.num 0), method := some "tools/list" } toolStub rfl rfl (by decide)
      (by intro h; simp at h)).2 rfl).1

/-- C4 counterexample: invoking tool name `does_not_exist` (id 7) with one
open stream delivers a frame whose envelope is a JSON-RPC ERROR object
(code -32603, message `Unknown tool: does_not_exist`) — not the
protocol-level success envelope the claim asserts. -/
theorem c4_counterexample_error_envelope :
    (handleMessage [connA]
      { id := some (.num 7), method := some "tools/call"
        params := some ⟨"does_not_exist"⟩ } toolStub).frame
      = some (sendSSEMessage ⟨some (.num 7), .err (-32603) "Unknown tool: does_not_exist"⟩)
    ∧ Envelope.isErrorEnvelope
        ⟨some (.num 7), .err (-32603) "Unknown tool: does_not_exist"⟩ = true := by
  exact ⟨rfl, rfl⟩

/-- C4 (amended): a `tools/call` request naming a tool outside the
registry, with an open writable stream, is acknowledged with 202 (no
transport error), and the frame delivered on the stream is a JSON-RPC
error envelope with code -32603 whose message carries the not-found
indication `Unknown tool: <name>`. -/
theorem c4_unknown_tool_delivery (conns : ConnState) (conn : SSEConnection)
    (msg : InboundMessage) (tools : String → OperationResult)
    (p : ToolCallParams)
    (hsel : selectConnection conns = some conn) (hw : conn.writable = true)
    (hm : msg.method = some "tools/call") (hp : msg.params = some p)
    (hk : knownToolNames.contains p.name = false)
    (hid : msg.id.isNone = false) :
    (handleMessage conns msg tools).status = 202
    ∧ (handleMessage conns msg tools).frame
        = some (sendSSEMessage ⟨msg.id, .err (-32603) ("Unknown tool: " ++ p.name)⟩) := by
  have hk' : p.name ∉ knownToolNames := by simpa using hk
  have hroute : routeRequest msg tools
      = .ok ⟨msg.id, .err (-32603) ("Unknown tool: " ++ p.name)⟩ := by
    simp [routeRequest, hm, hp, toolDispatch, hk']
  simp [handleMessage, hm, truthyStr, hsel, hid, hroute, hw]

/-- Witness for C4's amended theorem at a concrete unknown-tool request. -/
theorem c4_unknown_tool_delivery_witness :
    (handleMessage [connA]
      { id := some (.num 9), method := some "tools/call"
        params := some ⟨"frobnicate"⟩ } toolStub).status = 202
    ∧ (handleMessage [connA]
        { id := some (.num 9), method := some "tools/call"
          params := some ⟨"frobnicate"⟩ } toolStub).frame
        = some (sendSSEMessage ⟨some (.num 9), .err (-32603) "Unknown tool: frobnicate"⟩) :=
  c4_unknown_tool_delivery [connA] connA
    { id := some (.num 9), method := some "tools/call", params := some ⟨"frobnicate"⟩ }
    toolStub ⟨"frobnicate"⟩ rfl rfl rfl rfl (by decide) rfl

/-- C9: every frame the `/message` handler delivers carries the explicit
event-type marker `message`, which differs from the `endpoint` frame's
marker and from the unlabeled comment frames used for
connection-established and heartbeat. -/
theorem c9_delivery_frames_marked_message (conns : ConnState)
    (msg : InboundMessage) (tools : String → OperationResult) (f : SSEFrame)
    (h : (handleMessage conns msg tools).frame = some f) :
    frameMarker f = some "message"
    ∧ (∀ url, frameMarker f ≠ frameMarker (endpointFrame url))
    ∧ frameMarker f ≠ frameMarker connectedFrame
    ∧ frameMarker f ≠ frameMarker heartbeatFrame := by
  obtain ⟨e, rfl⟩ := handleMessage_frame_eq conns msg tools f h
  refine ⟨rfl, ?_, by simp [sendSSEMessage, connectedFrame, frameMarker],
    by simp [sendSSEMessage, heartbeatFrame, frameMarker]⟩
  intro url
  simp [sendSSEMessage, endpointFrame, frameMarker]

/-- Witness for C9: the frame produced by a concrete `initialize` request
on stream A is marked `message` and distinct from every control frame. -/
theorem c9_delivery_frames_marked_message_witness :
    frameMarker (sendSSEMessage ⟨some (.num 1), .ok .initializeResult⟩) = some "message"
    ∧ (∀ url, frameMarker (sendSSEMessage ⟨some (.num 1), .ok .initializeResult⟩)
        ≠ frameMarker (endpointFrame url))
    ∧ frameMarker (sendSSEMessage ⟨some (.num 1), .ok .initializeResult⟩)
        ≠ frameMarker connectedFrame
    ∧ frameMarker (sendSSEMessage ⟨some (.num 1), .ok .initializeResult⟩)
        ≠ frameMarker heartbeatFrame :=
  c9_delivery_frames_marked_message [connA] initMsg toolStub
    (sendSSEMessage ⟨some (.num 1), .ok .initializeResult⟩) rfl

/-- C5: credential-store round trip.  A token with no stored expiry
(session cookie, nonpositive `expires`) saved at time `tSave` is present
in the set restored at a later time `now` (within the one-year rewrite
window) with an expiry strictly greater than `now`; a token saved with an
expiry already in the past is absent from the restored set. -/
theorem c5_token_expiry_round_trip (cookies : List Cookie) (tSave now : Int)
    (c : Cookie) (hc : c ∈ cookies) (hd : domainHasAmazon c.domain = true) :
    (c.expires ≤ 0 → now < tSave + yearSeconds →
      persistCookie tSave c
        ∈ restoredCookies (.parsed (saveAmazonSession cookies tSave)) now
      ∧ now < (persistCookie tSave c).expires)
    ∧ (0 < c.expires → c.expires ≤ now →
      persistCookie tSave c
        ∉ restoredCookies (.parsed (saveAmazonSession cookies tSave)) now) := by
  have hmemf : c ∈ cookies.filter (fun c => domainHasAmazon c.domain) :=
    List.mem_filter.mpr ⟨hc, hd⟩
  have hmemm : persistCookie tSave c ∈ saveAmazonSession cookies tSave :=
    List.mem_map_of_mem _ hmemf
  constructor
  · intro hsess hnow
    have hneg : ¬ c.expires > 0 := by omega
    have hexp : (persistCookie tSave c).expires = tSave + yearSeconds := by
      simp [persistCookie, hneg]
    refine ⟨?_, by rw [hexp]; exact hnow⟩
    simp only [restoredCookies, List.mem_filter, decide_eq_true_eq]
    exact ⟨hmemm, by rw [hexp]; omega⟩
  · intro hpos hpast habs
    simp only [restoredCookies, List.mem_filter, decide_eq_true_eq] at habs
    obtain ⟨-, hgt⟩ := habs
    have hexp : (persistCookie tSave c).expires = c.expires := by
      simp [persistCookie, hpos]
    rw [hexp] at hgt
    omega

/-- Witness for C5: a session cookie (`expires = -1`) saved at time 1000
is restored at time 2000 with a future expiry, while a cookie whose
expiry 50 lies in the past is absent. -/
theorem c5_token_expiry_round_trip_witness :
    (persistCookie 1000 ⟨"session-token", "s", "www.amazon.com", -1⟩
        ∈ restoredCookies (.parsed (saveAmazonSession
          [⟨"session-token", "s", "www.amazon.com", -1⟩,
           ⟨"old-token", "o", ".amazon.com", 50⟩] 1000)) 2000
      ∧ (2000 : Int) < (persistCookie 1000 ⟨"session-token", "s", "www.amazon.com", -1⟩).expires)
    ∧ persistCookie 1000 ⟨"old-token", "o", ".amazon.com", 50⟩
        ∉ restoredCookies (.parsed (saveAmazonSession
          [⟨"session-token", "s", "www.amazon.com", -1⟩,
           ⟨"old-token", "o", ".amazon.com", 50⟩] 1000)) 2000 := by
  constructor
  · exact (c5_token_expiry_round_trip
      [⟨"session-token", "s", "www.amazon.com", -1⟩, ⟨"old-token", "o", ".amazon.com", 50⟩]
      1000 2000 ⟨"session-token", "s", "www.amazon.com", -1⟩
      (by decide) (by decide)).1 (by decide) (by decide)
  · exact (c5_token_expiry_round_trip
      [⟨"session-token", "s", "www.amazon.com", -1⟩, ⟨"old-token", "o", ".amazon.com", 50⟩]
      1000 2000 ⟨"old-token", "o", ".amazon.com", 50⟩
      (by decide) (by decide)).2 (by decide) (by decide)

/-- C6: `restoreAmazonSession` returns the zero-applied failure outcome
`(false, 0)` — and never lets an exception escape — when the file is
absent, when its content is unparseable, and when every saved token is
already expired. -/
theorem c6_restore_failure_outcomes (now : Int) (raw : String)
    (cookies : List Cookie) (hall : ∀ c ∈ cookies, c.expires ≤ now) :
    restoreAmazonSession .absent now = (false, 0)
    ∧ restoreAmazonSession (.corrupt raw) now = (false, 0)
    ∧ restoreAmazonSession (.parsed cookies) now = (false, 0) := by
  refine ⟨rfl, rfl, ?_⟩
  have hnil : cookies.filter (fun c => c.expires > now) = [] := by
    apply List.filter_eq_nil_iff.mpr
    intro c hcmem
    have := hall c hcmem
    simp only [decide_eq_true_eq]
    omega
  simp [restoreAmazonSession, restoreInner, hnil]

/-- Witness for C6 at a concrete time, raw blob and expired cookie list. -/
theorem c6_restore_failure_outcomes_witness :
    restoreAmazonSession .absent 100 = (false, 0)
    ∧ restoreAmazonSession (.corrupt "not json") 100 = (false, 0)
    ∧ restoreAmazonSession (.parsed [⟨"a", "b", "amazon.com", 50⟩]) 100 = (false, 0) :=
  c6_restore_failure_outcomes 100 "not json" [⟨"a", "b", "amazon.com", 50⟩] (by decide)

/-- A page environment in which every browser step of `addToCart`
succeeds and the product title reads `Widget`. -/
def goodEnv : PageEnv := ⟨true, true, some "Widget", true⟩

/-- C7 counterexample: supplying BOTH `asin` and `query` does not fail
with a validation error — the asin branch takes precedence and the call
succeeds. -/
theorem c7_counterexample_both_supplied :
    (addToCart { query := some "running shoes", asin := some "B000TEST00" } goodEnv).success
      = true
    ∧ (addToCart { query := some "running shoes", asin := some "B000TEST00" } goodEnv).error
      = none :=
  ⟨rfl, rfl⟩

/-- C7 (amended): `addToCart` fails with the validation error exactly when
neither `asin` nor `query` is supplied; when at least one is supplied
(asin taking precedence when both are) and the browser steps succeed, the
result envelope carries `{title, quantity}` with quantity defaulting
to 1. -/
theorem c7_add_to_cart_validation (p : AddToCartParams) (env : PageEnv) :
    (truthyStr p.asin = false → truthyStr p.query = false →
      addToCart p env =
        { success := false, message := "Failed to add item to cart"
          error := some "Either query or asin must be provided" })
    ∧ ((truthyStr p.asin = true ∨ truthyStr p.query = true) →
      navSucceeds p env = true → env.addToCartButtonPresent = true →
      (addToCart p env).success = true
      ∧ (addToCart p env).data
          = some (.cartAdd (pageTitle env) (jsQuantity p.quantity))) := by
  constructor
  · intro ha hq
    simp [addToCart, ha, hq]
  · intro hsup hnav hbtn
    rcases hsup with ha | hq
    · have hok : env.asinNavOk = true := by simpa [navSucceeds, ha] using hnav
      simp [addToCart, ha, hok, hbtn]
    · by_cases ha : truthyStr p.asin = true
      · have hok : env.asinNavOk = true := by simpa [navSucceeds, ha] using hnav
        simp [addToCart, ha, hok, hbtn]
      · have ha' : truthyStr p.asin = false := by simpa using ha
        have hok : env.queryNavOk = true := by
          simpa [navSucceeds, ha', hq] using hnav
        simp [addToCart, ha', hq, hok, hbtn]

/-- Witness for C7's amended theorem: the missing-both validation error
and an asin-only success at concrete inputs. -/
theorem c7_add_to_cart_validation_witness :
    addToCart {} goodEnv =
      { success := false, message := "Failed to add item to cart"
        error := some "Either query or asin must be provided" }
    ∧ (addToCart { asin := some "B000TEST00" } goodEnv).success = true
    ∧ (addToCart { asin := some "B000TEST00" } goodEnv).data
        = some (.cartAdd "Widget" 1) := by
  refine ⟨(c7_add_to_cart_validation {} goodEnv).1 rfl rfl, ?_⟩
  have h := (c7_add_to_cart_validation { asin := some "B000TEST00" } goodEnv).2
    (Or.inl (by decide)) rfl rfl
  exact h

/-- C8 counterexample: with a secret configured and no token provided, a
request to the health endpoint is still allowed — the authentication
check does not apply on every endpoint. -/
theorem c8_counterexample_health_unauthenticated :
    requestAllowed (some "secret-token") ⟨none, none⟩ .health = true
    ∧ truthyStr (some "secret-token") = true
    ∧ providedToken ⟨none, none⟩ ≠ some "secret-token" := by
  refine ⟨rfl, by decide, by decide⟩

/-- C8 (amended): with no secret configured every request is allowed on
every route; with a secret configured, requests to the authenticated
routes (`/sse`, `/message`) are allowed iff the provided bearer/query
token equals the secret; the `/health` route mounts no authentication
middleware and is always allowed. -/
theorem c8_auth_policy (secret : Option String) (r : AuthRequest)
    (e : Endpoint) :
    (truthyStr secret = false → requestAllowed secret r e = true)
    ∧ (truthyStr secret = true → endpointAuthenticated e = true →
        (requestAllowed secret r e = true ↔ providedToken r = secret))
    ∧ requestAllowed secret r .health = true := by
  refine ⟨?_, ?_, rfl⟩
  · intro hs
    simp [requestAllowed, authenticate, hs]
  · intro hs he
    simp [requestAllowed, he, authenticate, hs]

/-- Witness for C8's amended theorem: no secret lets an empty request
through `/sse`; with secret `s3cr3t`, a matching bearer token is allowed
on `/message`. -/
theorem c8_auth_policy_witness :
    requestAllowed none ⟨none, none⟩ .sse = true
    ∧ (requestAllowed (some "s3cr3t") ⟨some "s3cr3t", none⟩ .message = true
        ↔ providedToken ⟨some "s3cr3t", none⟩ = some "s3cr3t") :=
  ⟨(c8_auth_policy none ⟨none, none⟩ .sse).1 rfl,
   (c8_auth_policy (some "s3cr3t") ⟨some "s3cr3t", none⟩ .message).2.1 (by decide) rfl⟩

end AmazonMcp
